import Mathlib

/-
  Shallow embedding of the web-search pipeline of this repository:
  src/models.py (data model), src/parser.py (ResponseParser),
  src/client.py (WebSearchClient), src/search_service.py (SearchService).

  Conventions of the embedding:
  - Python dictionaries coming from the normalized provider response are
    structures whose fields are Option-valued: none models an absent key.
  - Python exceptions are an explicit error type: ValueError and SearchError
    are distinct constructors, and fallible operations return Except.
  - datetime.now() is a parameter "now : Nat" passed to parse.
  - The OpenAI SDK transport (self.client.responses.create plus the
    conversion to a plain dictionary) is a parameter
    "transport : Payload -> TransportOutcome"; its failure constructors
    model the exception kinds caught in WebSearchClient.search.
  - The "annotations" key of a content entry is the field "anns" (a lexical
    restriction of this development prevents using the original name).
-/

namespace WebSearch

/- Python string primitives, embedded structurally over character lists so
that every definition evaluates by kernel reduction. -/

/-- Python str.startswith on whole strings. -/
def strPrefixB (p s : String) : Bool :=
  p.toList.isPrefixOf s.toList

/-- Whitespace characters removed by Python str.strip() (ASCII subset). -/
def isPySpace (c : Char) : Bool :=
  c = ' ' || c = '\t' || c = '\n' || c = '\r' || c = '\x0b' || c = '\x0c'

/-- Python str.strip(): drop leading and trailing whitespace. -/
def pyStrip (s : String) : String :=
  String.mk (((s.toList.dropWhile isPySpace).reverse.dropWhile isPySpace).reverse)

/-- SearchOptions from src/models.py: model defaults to "gpt-4o-mini",
reasoning_effort defaults to "low"; allowed_domains and user_location are
optional. A user_location is a free-form mapping, embedded as an
association list. -/
structure SearchOptions where
  model : String := "gpt-4o-mini"
  allowed_domains : Option (List String) := none
  user_location : Option (List (String × String)) := none
  reasoning_effort : String := "low"
deriving DecidableEq

/-- Citation from src/models.py. -/
structure Citation where
  url : String
  title : String
  start_index : Int
  end_index : Int
deriving DecidableEq

/-- Citation.length property: end_index - start_index. -/
def Citation.length (c : Citation) : Int :=
  c.end_index - c.start_index

/-- Source from src/models.py. -/
structure Source where
  url : String
  type : String
deriving DecidableEq

/-- Source.is_special property: type.startswith("oai-"). -/
def Source.is_special (s : Source) : Bool :=
  strPrefixB "oai-" s.type

/-- SearchResult from src/models.py; timestamp is the instant captured by
datetime.now() at parse time, embedded as a Nat. -/
structure SearchResult where
  query : String
  text : String
  citations : List Citation
  sources : List Source
  search_id : String
  timestamp : Nat
deriving DecidableEq

/-- SearchError from src/models.py: code, message and an optional details
mapping (embedded as an association list). -/
structure SearchErr where
  code : String
  message : String
  details : Option (List (String × String)) := none
deriving DecidableEq

/-- Python exceptions raised by the pipeline: ValueError (used for
validation and structural failures) and SearchError are distinct. -/
inductive PyError where
  | valueError (message : String)
  | searchError (e : SearchErr)
deriving DecidableEq

/- ---------------- Normalized provider response ---------------- -/

/-- A url_citation annotation dictionary inside a content entry:
keys type, url, title, start_index, end_index, each possibly absent. -/
structure Ann where
  type : Option String := none
  url : Option String := none
  title : Option String := none
  start_index : Option Int := none
  end_index : Option Int := none
deriving DecidableEq

/-- A content entry of a message item: keys type, text, annotations
(field name anns). -/
structure ContentItem where
  type : Option String := none
  text : Option String := none
  anns : Option (List Ann) := none
deriving DecidableEq

/-- A source dictionary inside action.sources: keys url, type. -/
structure SourceDict where
  url : Option String := none
  type : Option String := none
deriving DecidableEq

/-- The action dictionary of a web_search_call item, as produced by
WebSearchClient._action_to_dict: keys type, query, domains, sources. -/
structure ActionDict where
  type : Option String := none
  query : Option String := none
  domains : Option (List String) := none
  sources : Option (List SourceDict) := none
deriving DecidableEq

/-- Python truthiness of an action dictionary: it is falsy exactly when it
has no keys. -/
def ActionDict.isEmptyDict (a : ActionDict) : Bool :=
  a.type.isNone && a.query.isNone && a.domains.isNone && a.sources.isNone

/-- An output item of the normalized response: type discriminator plus the
optional keys id, status, role, content, action. -/
structure OutputItem where
  type : Option String := none
  id : Option String := none
  status : Option String := none
  role : Option String := none
  content : Option (List ContentItem) := none
  action : Option ActionDict := none
deriving DecidableEq

/-- The normalized response dictionary produced by
WebSearchClient._response_to_dict: id, model, created, output. -/
structure ResponseDict where
  id : String := "unknown"
  model : String := "unknown"
  created : Int := 0
  output : Option (List OutputItem) := none
deriving DecidableEq

/- ---------------- ResponseParser (src/parser.py) ---------------- -/

namespace ResponseParser

/-- ResponseParser._extract_citations: keep url_citation annotations in
order, defaulting missing strings to "" and missing indices to 0. -/
def extract_citations : List Ann → List Citation
  | [] => []
  | a :: rest =>
    if a.type = some "url_citation" then
      { url := a.url.getD "", title := a.title.getD "",
        start_index := a.start_index.getD 0,
        end_index := a.end_index.getD 0 } :: extract_citations rest
    else
      extract_citations rest

/-- ResponseParser._extract_sources: map action.sources entries to Source,
defaulting url to "" and type to "web". -/
def extract_sources (action : ActionDict) : List Source :=
  (action.sources.getD []).map
    (fun s => { url := s.url.getD "", type := s.type.getD "web" })

/-- Loop body of the text/citations pass of ResponseParser.parse: a
message item overwrites (text, citations) with the values of each of its
output_text content entries in order. -/
def textStep (acc : String × List Citation) (item : OutputItem) :
    String × List Citation :=
  if item.type = some "message" then
    (item.content.getD []).foldl
      (fun acc2 ci =>
        if ci.type = some "output_text" then
          (ci.text.getD "", extract_citations (ci.anns.getD []))
        else acc2)
      acc
  else acc

/-- Loop body of the sources/id pass of ResponseParser.parse: a
web_search_call item overwrites search_id with its id (default ""), and
overwrites sources only when its action dictionary is present and
non-empty. -/
def sourcesStep (acc : List Source × String) (item : OutputItem) :
    List Source × String :=
  if item.type = some "web_search_call" then
    ((match item.action with
      | some a => if a.isEmptyDict then acc.1 else extract_sources a
      | none => acc.1),
     item.id.getD "")
  else acc

/-- ResponseParser.parse: raises ValueError when the output key is absent
or the output list is empty (Python truthiness of response.get("output")),
otherwise runs the two passes and assembles the SearchResult, stamping it
with the clock value supplied at parse time. -/
def parse (response : ResponseDict) (query : String) (now : Nat) :
    Except PyError SearchResult :=
  match response.output with
  | none => .error (.valueError "No output in response")
  | some [] => .error (.valueError "No output in response")
  | some (item0 :: rest) =>
    let tc := (item0 :: rest).foldl textStep ("", [])
    let si := (item0 :: rest).foldl sourcesStep ([], "")
    .ok { query := query, text := tc.1, citations := tc.2,
          sources := si.1, search_id := si.2, timestamp := now }

/-- Banner line of format_for_display: 80 equals signs. -/
def bannerLine : String :=
  String.mk (List.replicate 80 '=')

/-- Enumerated citation block lines of format_for_display, starting the
numbering at the given index. -/
def citationLines : Nat → List Citation → List String
  | _, [] => []
  | i, c :: rest =>
    ("  [" ++ toString i ++ "] " ++ c.title)
      :: ("      " ++ c.url)
      :: citationLines (i + 1) rest

/-- The list of lines built by ResponseParser.format_for_display before
they are joined with newlines. -/
def format_lines (r : SearchResult) : List String :=
  [bannerLine, "Query: " ++ r.query, bannerLine, "", "Result:", r.text, ""]
  ++ (if r.citations = [] then ["Citations: None"]
      else "Citations:" :: citationLines 1 r.citations)
  ++ [""]
  ++ (if r.sources = [] then []
      else ("Sources (" ++ toString r.sources.length ++ " total):")
        :: ((r.sources.take 5).map
              (fun s => "  - " ++ s.url ++ " (" ++ s.type ++ ")")
            ++ (if 5 < r.sources.length then
                  ["  ... and " ++ toString (r.sources.length - 5) ++ " more"]
                else [])))
  ++ [bannerLine]

/-- ResponseParser.format_for_display: the joined lines. -/
def format_for_display (r : SearchResult) : String :=
  String.intercalate "\n" (format_lines r)

end ResponseParser

/- ---------------- WebSearchClient (src/client.py) ---------------- -/

/-- The domain filter object attached to the tool declaration:
{"allowed_domains": [...]}. -/
structure DomainFilter where
  allowed_domains : List String
deriving DecidableEq

/-- The single web-search tool declaration of the payload, with its
optional filters and user_location keys. -/
structure ToolDecl where
  type : String
  filters : Option DomainFilter := none
  user_location : Option (List (String × String)) := none
deriving DecidableEq

/-- The request payload built by WebSearchClient._construct_payload.
The field include_keys embeds the "include" key of the payload. -/
structure Payload where
  model : String
  input : String
  tools : List ToolDecl
  reasoning : Option String := none
  include_keys : List String := []
deriving DecidableEq

/-- Outcome of the single provider transport call performed inside
WebSearchClient.search: either a normalized response or one of the
exception kinds caught there. -/
inductive TransportOutcome where
  | ok (response : ResponseDict)
  | authErr (msg : String)
  | rateLimitErr (msg : String)
  | apiErr (msg : String)
  | otherErr (msg : String)
deriving DecidableEq

/-- Python truthiness of an optional string: some non-empty string. -/
def optTruthy : Option String → Bool
  | none => false
  | some s => if s = "" then false else true

/-- The WebSearchClient instance state: the resolved api_key. -/
structure WebSearchClient where
  api_key : String
deriving DecidableEq

namespace WebSearchClient

/-- WebSearchClient.__init__: resolve api_key or OPENAI_API_KEY from the
environment (modelled as the second argument) with Python "or", and fail
fast with a ValueError when the result is falsy. -/
def construct (api_key env_key : Option String) :
    Except PyError WebSearchClient :=
  let key := if optTruthy api_key then api_key else env_key
  if optTruthy key = false then
    .error (.valueError
      "API key must be provided or set in OPENAI_API_KEY environment variable")
  else
    .ok { api_key := key.getD "" }

/-- WebSearchClient.validate_api_key: syntactic check only. -/
def validate_api_key (c : WebSearchClient) : Bool :=
  strPrefixB "sk-" c.api_key && 20 < c.api_key.length

/-- WebSearchClient._construct_payload: model, input, a single web_search
tool (with filters attached when allowed_domains is truthy and
user_location attached when truthy), reasoning only when the effort is not
the "low" default, and always the include-sources directive. -/
def construct_payload (query : String) (options : SearchOptions) : Payload :=
  let base : ToolDecl := { type := "web_search" }
  let tool1 : ToolDecl :=
    match options.allowed_domains with
    | some ds => if ds = [] then base else { base with filters := some ⟨ds⟩ }
    | none => base
  let tool2 : ToolDecl :=
    match options.user_location with
    | some loc => if loc = [] then tool1 else { tool1 with user_location := some loc }
    | none => tool1
  { model := options.model,
    input := query,
    tools := [tool2],
    reasoning := if options.reasoning_effort = "low" then none
                 else some options.reasoning_effort,
    include_keys := ["web_search_call.action.sources"] }

/-- Error mapping of the try/except block of WebSearchClient.search: each
caught exception kind becomes a SearchError with a fixed code and the
original failure text in details.original_error. -/
def map_transport_result : TransportOutcome → Except PyError ResponseDict
  | .ok resp => .ok resp
  | .authErr e =>
    .error (.searchError
      { code := "AUTHENTICATION_ERROR",
        message := "Invalid API key or authentication failed",
        details := some [("original_error", e)] })
  | .rateLimitErr e =>
    .error (.searchError
      { code := "RATE_LIMIT_ERROR",
        message := "API rate limit exceeded",
        details := some [("original_error", e)] })
  | .apiErr e =>
    .error (.searchError
      { code := "API_ERROR",
        message := "API request failed: " ++ e,
        details := some [("original_error", e)] })
  | .otherErr e =>
    .error (.searchError
      { code := "UNKNOWN_ERROR",
        message := "Unexpected error: " ++ e,
        details := some [("original_error", e)] })

/-- WebSearchClient.search: validate the query, default the options, build
the payload, perform exactly one transport call and map its outcome.
The second component counts transport invocations. -/
def search (transport : Payload → TransportOutcome) (query : String)
    (options : Option SearchOptions) :
    Except PyError ResponseDict × Nat :=
  if query = "" ∨ pyStrip query = "" then
    (.error (.valueError "Query cannot be empty"), 0)
  else if 5000 < query.length then
    (.error (.valueError "Query too long (max 5000 characters)"), 0)
  else
    (map_transport_result (transport (construct_payload query (options.getD {}))), 1)

end WebSearchClient

/- ---------------- SearchService (src/search_service.py) ---------------- -/

namespace SearchService

/-- SearchService.validate_query: non-empty, not whitespace-only, at most
5000 characters. -/
def validate_query (query : String) : Bool :=
  if query = "" then false
  else if pyStrip query = "" then false
  else if 5000 < query.length then false
  else true

/-- The SearchError raised by the catch-all except clause of
SearchService.search: SEARCH_FAILED, preserving the original message in
details.original_error. -/
def wrap_failed (msg : String) : PyError :=
  .searchError
    { code := "SEARCH_FAILED",
      message := "Search operation failed: " ++ msg,
      details := some [("original_error", msg)] }

/-- The try/except body of SearchService.search, applied to the outcome of
the client call: on success the parser runs; a SearchError raised by
either step re-raises unchanged, and any other exception (a ValueError) is
wrapped into SEARCH_FAILED. -/
def try_search_parse (clientResult : Except PyError ResponseDict)
    (query : String) (now : Nat) : Except PyError SearchResult :=
  match clientResult with
  | .ok resp =>
    match ResponseParser.parse resp query now with
    | .ok result => .ok result
    | .error (.searchError se) => .error (.searchError se)
    | .error (.valueError msg) => .error (wrap_failed msg)
  | .error (.searchError se) => .error (.searchError se)
  | .error (.valueError msg) => .error (wrap_failed msg)

/-- SearchService.search: validate, default options, call the client then
the parser inside a try block; SearchError re-raises unchanged and any
other exception is wrapped into SEARCH_FAILED with the original message in
details.original_error. The second component counts transport calls. -/
def search (transport : Payload → TransportOutcome) (now : Nat)
    (query : String) (options : Option SearchOptions) :
    Except PyError SearchResult × Nat :=
  if validate_query query then
    (try_search_parse
      (WebSearchClient.search transport query (some (options.getD {}))).1 query now,
     (WebSearchClient.search transport query (some (options.getD {}))).2)
  else
    (.error (.valueError "Invalid query: must be non-empty and under 5000 characters"), 0)

/-- Loop of SearchService.apply_domain_filters: the first invalid domain,
with the message the code raises for it (scheme prefix checked before the
empty/space format check). -/
def domain_error : List String → Option String
  | [] => none
  | d :: rest =>
    if strPrefixB "http://" d || strPrefixB "https://" d then
      some ("Invalid domain \x27" ++ d ++ "\x27: remove http:// or https:// prefix")
    else if d == "" || d.toList.contains ' ' then
      some ("Invalid domain format: \x27" ++ d ++ "\x27")
    else domain_error rest

/-- SearchService.apply_domain_filters: count check first, then the
per-entry loop, then SearchOptions(allowed_domains=domains). -/
def apply_domain_filters (domains : List String) :
    Except PyError SearchOptions :=
  if 20 < domains.length then
    .error (.valueError "Too many domains (max 20 allowed)")
  else
    match domain_error domains with
    | some msg => .error (.valueError msg)
    | none => .ok { allowed_domains := some domains }

end SearchService

/- ---------------- Helper notions used by the theorems ---------------- -/

/-- The value produced by the last element of the list on which the
selector fires, scanning left to right (later elements override earlier
ones). -/
def pickLast {β γ : Type} (h : β → Option γ) : List β → Option γ
  | [] => none
  | x :: xs =>
    match pickLast h xs with
    | some y => some y
    | none => h x

/-- Selector for the inner content loop of the text/citations pass: an
output_text entry yields its text and extracted citations. -/
def ctPick (ci : ContentItem) : Option (String × List Citation) :=
  if ci.type = some "output_text" then
    some (ci.text.getD "", ResponseParser.extract_citations (ci.anns.getD []))
  else none

/-- Selector for the outer loop of the text/citations pass: a message item
yields the value of its last output_text content entry, if any. -/
def msgPick (item : OutputItem) : Option (String × List Citation) :=
  if item.type = some "message" then pickLast ctPick (item.content.getD [])
  else none

/-- Selector for the search id: every web_search_call item yields its id,
defaulting to "". -/
def wscIdPick (item : OutputItem) : Option String :=
  if item.type = some "web_search_call" then some (item.id.getD "") else none

/-- Selector for the sources: a web_search_call item yields extracted
sources only when it carries a non-empty action dictionary. -/
def wscSourcesPick (item : OutputItem) : Option (List Source) :=
  if item.type = some "web_search_call" then
    match item.action with
    | some a => if a.isEmptyDict then none else some (ResponseParser.extract_sources a)
    | none => none
  else none

/-- Boolean check that the needle occurs as a contiguous run inside the
haystack, both given as character lists. -/
def listContainsB (needle : List Char) : List Char → Bool
  | [] => needle.isEmpty
  | c :: rest => needle.isPrefixOf (c :: rest) || listContainsB needle rest

/-- Boolean substring check on strings. -/
def strContainsB (hay sub : String) : Bool :=
  listContainsB sub.toList hay.toList

/-- A domain entry rejected by the apply_domain_filters loop: it carries a
scheme prefix, is empty, or contains a space. -/
def badDomainB (d : String) : Bool :=
  (strPrefixB "http://" d || strPrefixB "https://" d) || (d == "" || d.toList.contains ' ')

/- ---------------- Concrete data used by the claims ---------------- -/

/-- The concrete normalized response of the spec scenario for claim C9:
one message item with one output_text entry carrying one url_citation
annotation, and one web_search_call item with id ws_123 and one web
source. -/
def c9resp : ResponseDict :=
  { output := some [
      { type := some "message",
        content := some [
          { type := some "output_text",
            text := some "Recent technology news highlights several exciting developments",
            anns := some [
              { type := some "url_citation",
                url := some "https://techcrunch.com/x",
                title := some "TC",
                start_index := some 95,
                end_index := some 150 } ] } ] },
      { type := some "web_search_call",
        id := some "ws_123",
        action := some { sources := some [
          { url := some "https://techcrunch.com/x", type := some "web" } ] } } ] }

/-- The expected parse result of c9resp at query "q" and clock value 1. -/
def c8res : SearchResult :=
  { query := "q",
    text := "Recent technology news highlights several exciting developments",
    citations := [{ url := "https://techcrunch.com/x", title := "TC",
                    start_index := 95, end_index := 150 }],
    sources := [{ url := "https://techcrunch.com/x", type := "web" }],
    search_id := "ws_123",
    timestamp := 1 }

/-- A normalized response with two message items and two web_search_call
items, to decide which of the duplicates parse keeps: the first message
carries text "first text" and one url_citation, the second message carries
text "second text" and no annotations, the first web_search_call has id
ws_first with one source, the second has id ws_second with another
source. -/
def c1resp : ResponseDict :=
  { output := some [
      { type := some "message",
        content := some [
          { type := some "output_text",
            text := some "first text",
            anns := some [
              { type := some "url_citation",
                url := some "https://a.example",
                title := some "A",
                start_index := some 0,
                end_index := some 10 } ] } ] },
      { type := some "message",
        content := some [
          { type := some "output_text",
            text := some "second text",
            anns := some [] } ] },
      { type := some "web_search_call",
        id := some "ws_first",
        action := some { sources := some [
          { url := some "https://s1.example", type := some "web" } ] } },
      { type := some "web_search_call",
        id := some "ws_second",
        action := some { sources := some [
          { url := some "https://s2.example", type := some "web" } ] } } ] }

/-- The parse result of c1resp at query "q" and clock value 0: every field
comes from the LAST matching output item. -/
def c1res : SearchResult :=
  { query := "q",
    text := "second text",
    citations := [],
    sources := [{ url := "https://s2.example", type := "web" }],
    search_id := "ws_second",
    timestamp := 0 }

/-- A SearchResult with no citations and no sources, exercising both empty
branches of format_for_display. -/
def c10res : SearchResult :=
  { query := "q", text := "t", citations := [], sources := [],
    search_id := "", timestamp := 0 }

/-- A message item whose single content entry is not an output_text
entry. -/
def c5it : OutputItem :=
  { type := some "message", content := some [{ type := some "reasoning_text" }] }

/-- Options exercising every optional payload ingredient: two allowed
domains, a user location and a non-default reasoning effort. -/
def c4opts : SearchOptions :=
  { allowed_domains := some ["a.com", "b.com"],
    user_location := some [("country", "US")],
    reasoning_effort := "high" }

/-- Options whose userLocation is set to an empty mapping: set, yet falsy
under Python truthiness. -/
def c4empty : SearchOptions :=
  { user_location := some [] }

/- ---------------- Helper theorems ---------------- -/

/-- Unfolding equation of pickLast on a cons cell. -/
theorem pickLast_cons {β γ : Type} (h : β → Option γ) (x : β) (xs : List β) :
    pickLast h (x :: xs)
      = match pickLast h xs with
        | some y => some y
        | none => h x := rfl

/-- The inner content loop of the text/citations pass computes the value
of the last output_text entry, or keeps the accumulator. -/
theorem contentFold_eq :
    ∀ (content : List ContentItem) (acc : String × List Citation),
      content.foldl
        (fun acc2 ci =>
          if ci.type = some "output_text" then
            (ci.text.getD "", ResponseParser.extract_citations (ci.anns.getD []))
          else acc2)
        acc
        = (pickLast ctPick content).getD acc := by
  intro content
  induction content with
  | nil => intro acc; rfl
  | cons ci cis ih =>
    intro acc
    rw [List.foldl_cons, ih, pickLast_cons]
    cases hx : pickLast ctPick cis with
    | some y => simp
    | none => by_cases hc : ci.type = some "output_text" <;> simp [ctPick, hc]

/-- The text/citations pass computes the value of the last output_text
entry of the last message item carrying one. -/
theorem textPass_eq :
    ∀ (items : List OutputItem) (acc : String × List Citation),
      items.foldl ResponseParser.textStep acc = (pickLast msgPick items).getD acc := by
  intro items
  induction items with
  | nil => intro acc; rfl
  | cons it its ih =>
    intro acc
    by_cases hm : it.type = some "message"
    · have hstep : ResponseParser.textStep acc it
          = (pickLast ctPick (it.content.getD [])).getD acc := by
        unfold ResponseParser.textStep
        rw [if_pos hm]
        exact contentFold_eq _ _
      rw [List.foldl_cons, hstep, ih, pickLast_cons]
      cases hx : pickLast msgPick its with
      | some y => simp
      | none =>
        simp only [Option.getD_none]
        unfold msgPick
        rw [if_pos hm]
    · have hstep : ResponseParser.textStep acc it = acc := by
        unfold ResponseParser.textStep
        rw [if_neg hm]
      rw [List.foldl_cons, hstep, ih, pickLast_cons]
      cases hx : pickLast msgPick its with
      | some y => simp
      | none => simp [msgPick, hm]

/-- The sources/id pass: search_id is the id of the last web_search_call
item, and sources come from the last web_search_call item with a
non-empty action. -/
theorem sourcesPass_eq :
    ∀ (items : List OutputItem) (accS : List Source) (accI : String),
      items.foldl ResponseParser.sourcesStep (accS, accI)
        = ((pickLast wscSourcesPick items).getD accS,
           (pickLast wscIdPick items).getD accI) := by
  intro items
  induction items with
  | nil => intro accS accI; rfl
  | cons it its ih =>
    intro accS accI
    by_cases hw : it.type = some "web_search_call"
    · cases ha : it.action with
      | none =>
        have hstep : ResponseParser.sourcesStep (accS, accI) it = (accS, it.id.getD "") := by
          unfold ResponseParser.sourcesStep
          rw [if_pos hw, ha]
        rw [List.foldl_cons, hstep, ih, pickLast_cons, pickLast_cons]
        cases hs : pickLast wscSourcesPick its <;>
          cases hi : pickLast wscIdPick its <;>
            simp [wscSourcesPick, wscIdPick, hw, ha]
      | some a =>
        by_cases he : a.isEmptyDict
        · have hstep : ResponseParser.sourcesStep (accS, accI) it = (accS, it.id.getD "") := by
            unfold ResponseParser.sourcesStep
            rw [if_pos hw, ha]
            simp [he]
          rw [List.foldl_cons, hstep, ih, pickLast_cons, pickLast_cons]
          cases hs : pickLast wscSourcesPick its <;>
            cases hi : pickLast wscIdPick its <;>
              simp [wscSourcesPick, wscIdPick, hw, ha, he]
        · have hstep : ResponseParser.sourcesStep (accS, accI) it
              = (ResponseParser.extract_sources a, it.id.getD "") := by
            unfold ResponseParser.sourcesStep
            rw [if_pos hw, ha]
            simp [he]
          rw [List.foldl_cons, hstep, ih, pickLast_cons, pickLast_cons]
          cases hs : pickLast wscSourcesPick its <;>
            cases hi : pickLast wscIdPick its <;>
              simp [wscSourcesPick, wscIdPick, hw, ha, he]
    · have hstep : ResponseParser.sourcesStep (accS, accI) it = (accS, accI) := by
        unfold ResponseParser.sourcesStep
        rw [if_neg hw]
      rw [List.foldl_cons, hstep, ih, pickLast_cons, pickLast_cons]
      cases hs : pickLast wscSourcesPick its <;>
        cases hi : pickLast wscIdPick its <;>
          simp [wscSourcesPick, wscIdPick, hw]

/-- A selector that fires on no element of the list picks nothing. -/
theorem pickLast_eq_none {β γ : Type} (h : β → Option γ) :
    ∀ l : List β, (∀ x ∈ l, h x = none) → pickLast h l = none := by
  intro l
  induction l with
  | nil => intro _; rfl
  | cons x xs ih =>
    intro hall
    unfold pickLast
    rw [ih (fun y hy => hall y (List.mem_cons_of_mem x hy)),
      hall x (List.mem_cons_self x xs)]

/-- A list is a Boolean prefix of itself followed by anything. -/
theorem isPrefixOf_append_self :
    ∀ (n suf : List Char), n.isPrefixOf (n ++ suf) = true := by
  intro n
  induction n with
  | nil =>
    intro suf
    rw [List.nil_append]
    cases suf with
    | nil => rfl
    | cons c rest => rfl
  | cons c n ih =>
    intro suf
    rw [List.cons_append]
    show (c == c && n.isPrefixOf (n ++ suf)) = true
    rw [ih]
    simp

/-- The needle is found inside pre ++ needle ++ suf. -/
theorem listContainsB_append (n : List Char) :
    ∀ (pre suf : List Char), listContainsB n (pre ++ (n ++ suf)) = true := by
  intro pre
  induction pre with
  | nil =>
    intro suf
    rw [List.nil_append]
    cases n with
    | nil =>
      rw [List.nil_append]
      cases suf with
      | nil => rfl
      | cons c rest =>
        show (List.isPrefixOf [] (c :: rest) || listContainsB [] rest) = true
        rw [show List.isPrefixOf ([] : List Char) (c :: rest) = true from rfl]
        simp
    | cons c m =>
      rw [List.cons_append]
      show ((c :: m).isPrefixOf (c :: (m ++ suf)) || listContainsB (c :: m) (m ++ suf)) = true
      have h := isPrefixOf_append_self (c :: m) suf
      rw [List.cons_append] at h
      rw [h]
      simp
  | cons p ps ih =>
    intro suf
    rw [List.cons_append]
    show (n.isPrefixOf (p :: (ps ++ (n ++ suf))) || listContainsB n (ps ++ (n ++ suf))) = true
    rw [ih]
    simp

/-- Substring containment for a string assembled around the needle. -/
theorem strContainsB_append (a d b : String) :
    strContainsB (a ++ d ++ b) d = true := by
  unfold strContainsB
  have h1 : (a ++ d ++ b).toList = a.toList ++ (d.toList ++ b.toList) := by
    show (a ++ d ++ b).data = a.data ++ (d.data ++ b.data)
    rw [String.data_append, String.data_append, List.append_assoc]
  rw [h1]
  exact listContainsB_append d.toList a.toList b.toList

/-- Characterization of SearchService.validate_query. -/
theorem validate_query_spec (q : String) :
    SearchService.validate_query q = true
      ↔ (¬ q = "" ∧ ¬ pyStrip q = "" ∧ q.length ≤ 5000) := by
  unfold SearchService.validate_query
  by_cases h1 : q = "" <;> by_cases h2 : pyStrip q = "" <;>
    by_cases h3 : 5000 < q.length <;> simp [h1, h2, h3] <;> omega

/-- For a query passing service validation, the client performs exactly
one transport call. -/
theorem client_calls_one (transport : Payload → TransportOutcome)
    (q : String) (o : Option SearchOptions)
    (hq : SearchService.validate_query q = true) :
    (WebSearchClient.search transport q o).2 = 1 := by
  obtain ⟨h1, h2, h3⟩ := (validate_query_spec q).mp hq
  unfold WebSearchClient.search
  rw [if_neg (by tauto), if_neg (by omega)]

/-- For a query passing service validation, the client maps the transport
outcome through map_transport_result. -/
theorem client_search_eq (transport : Payload → TransportOutcome)
    (q : String) (o : Option SearchOptions)
    (hq : SearchService.validate_query q = true) :
    WebSearchClient.search transport q o
      = (WebSearchClient.map_transport_result
          (transport (WebSearchClient.construct_payload q (o.getD {}))), 1) := by
  obtain ⟨h1, h2, h3⟩ := (validate_query_spec q).mp hq
  unfold WebSearchClient.search
  rw [if_neg (by tauto), if_neg (by omega)]

/-- A list every entry of which is a valid domain produces no error in the
apply_domain_filters loop. -/
theorem domain_error_none :
    ∀ l : List String, (∀ d ∈ l, badDomainB d = false) →
      SearchService.domain_error l = none := by
  intro l
  induction l with
  | nil => intro _; rfl
  | cons x xs ih =>
    intro hall
    have hx := hall x (List.mem_cons_self x xs)
    unfold badDomainB at hx
    rw [Bool.or_eq_false_iff] at hx
    obtain ⟨hx1, hx2⟩ := hx
    unfold SearchService.domain_error
    simp only [hx1, hx2, Bool.false_eq_true, if_false]
    exact ih (fun d hd => hall d (List.mem_cons_of_mem x hd))

/-- A list containing an invalid domain makes the apply_domain_filters
loop produce an error message that contains the offending entry. -/
theorem domain_error_first :
    ∀ (l : List String) (d : String), d ∈ l → badDomainB d = true →
      ∃ d2 m, d2 ∈ l ∧ badDomainB d2 = true ∧
        SearchService.domain_error l = some m ∧ strContainsB m d2 = true := by
  intro l
  induction l with
  | nil => intro d hd; cases hd
  | cons x xs ih =>
    intro d hd hbad
    by_cases h1 : (strPrefixB "http://" x || strPrefixB "https://" x) = true
    · refine ⟨x, "Invalid domain \x27" ++ x ++ "\x27: remove http:// or https:// prefix",
        List.mem_cons_self x xs, ?_, ?_, ?_⟩
      · unfold badDomainB
        rw [h1, Bool.true_or]
      · unfold SearchService.domain_error
        rw [if_pos h1]
      · exact strContainsB_append "Invalid domain \x27" x
          "\x27: remove http:// or https:// prefix"
    · by_cases h2 : (x == "" || x.toList.contains ' ') = true
      · refine ⟨x, "Invalid domain format: \x27" ++ x ++ "\x27",
          List.mem_cons_self x xs, ?_, ?_, ?_⟩
        · unfold badDomainB
          rw [h2, Bool.or_true]
        · unfold SearchService.domain_error
          rw [if_neg h1, if_pos h2]
        · exact strContainsB_append "Invalid domain format: \x27" x "\x27"
      · have hxgood : badDomainB x = false := by
          unfold badDomainB
          rw [Bool.not_eq_true] at h1 h2
          rw [h1, h2]
          rfl
        have hdxs : d ∈ xs := by
          rcases List.mem_cons.mp hd with heq | hmem
          · exfalso
            rw [heq] at hbad
            rw [hbad] at hxgood
            exact absurd hxgood (by simp)
          · exact hmem
        obtain ⟨d2, m, hm1, hm2, hm3, hm4⟩ := ih d hdxs hbad
        refine ⟨d2, m, List.mem_cons_of_mem x hm1, hm2, ?_, hm4⟩
        unfold SearchService.domain_error
        rw [if_neg h1, if_neg h2]
        exact hm3

/- ---------------- Claim theorems ---------------- -/

/-- C9: on the concrete spec scenario, parse("tech news") produces a
result with searchId "ws_123", exactly one citation whose derived length
is 150 - 95 = 55, and exactly one source whose derived is_special is
false ("web" does not start with the reserved "oai-" prefix). -/
theorem C9_claim :
    (ResponseParser.parse c9resp "tech news" 0).map
        (fun r => (r.search_id, r.citations.map Citation.length,
                   r.sources.map Source.is_special))
      = .ok ("ws_123", [(55 : Int)], [false]) := rfl

/-- C5 counterexample: the structural error raised for an empty or absent
output list carries the message "No output in response" (capital N), not
the claimed "no output in response". -/
theorem C5_counterexample :
    ResponseParser.parse { output := some [] } "q" 0
        = .error (.valueError "No output in response") ∧
    ResponseParser.parse { output := none } "q" 0
        = .error (.valueError "No output in response") ∧
    ¬ ("No output in response" = "no output in response") :=
  ⟨rfl, rfl, by decide⟩

/-- C5 (amended): parse raises the structural error, whose message is
"No output in response", exactly when the normalized response has no
output key or an empty output list; a non-empty output holding one
message item without any output_text content entry parses without
raising, with empty text and no citations. -/
theorem C5_claim (r : ResponseDict) (q : String) (now : Nat)
    (it : OutputItem) :
    (ResponseParser.parse r q now = .error (.valueError "No output in response")
       ↔ (r.output = none ∨ r.output = some [])) ∧
    (it.type = some "message" →
      (∀ ci ∈ it.content.getD [], ¬ ci.type = some "output_text") →
      ResponseParser.parse { r with output := some [it] } q now
        = .ok { query := q, text := "", citations := [], sources := [],
                search_id := "", timestamp := now }) := by
  rcases r with ⟨rid, rmodel, rcreated, routput⟩
  constructor
  · constructor
    · intro h
      cases routput with
      | none => exact Or.inl rfl
      | some l =>
        cases l with
        | nil => exact Or.inr rfl
        | cons a as => simp [ResponseParser.parse] at h
    · intro h
      cases routput with
      | none => rfl
      | some l =>
        rcases h with h | h
        · exact absurd h (by simp)
        · cases l with
          | nil => rfl
          | cons a as => exact absurd h (by simp)
  · intro hm hn
    have hbase : ResponseParser.parse ⟨rid, rmodel, rcreated, some [it]⟩ q now
        = .ok { query := q,
                text := ([it].foldl ResponseParser.textStep ("", [])).1,
                citations := ([it].foldl ResponseParser.textStep ("", [])).2,
                sources := ([it].foldl ResponseParser.sourcesStep ([], "")).1,
                search_id := ([it].foldl ResponseParser.sourcesStep ([], "")).2,
                timestamp := now } := rfl
    have hw : ¬ it.type = some "web_search_call" := by
      rw [hm]
      simp
    have ht : [it].foldl ResponseParser.textStep ("", [])
        = (("" : String), ([] : List Citation)) := by
      rw [textPass_eq, pickLast_cons]
      show (match (pickLast msgPick []) with
            | some y => some y
            | none => msgPick it).getD ("", []) = ("", [])
      have hnone : pickLast ctPick (it.content.getD []) = none := by
        apply pickLast_eq_none
        intro ci hci
        unfold ctPick
        rw [if_neg (hn ci hci)]
      unfold msgPick
      rw [if_pos hm, hnone]
      rfl
    have hs : [it].foldl ResponseParser.sourcesStep ([], "")
        = (([] : List Source), ("" : String)) := by
      rw [sourcesPass_eq, pickLast_cons, pickLast_cons]
      show ((match (pickLast wscSourcesPick []) with
             | some y => some y
             | none => wscSourcesPick it).getD [],
            (match (pickLast wscIdPick []) with
             | some y => some y
             | none => wscIdPick it).getD "") = ([], "")
      unfold wscSourcesPick wscIdPick
      rw [if_neg hw, if_neg hw]
      rfl
    rw [hbase, ht, hs]

/-- C5 witness: the amended claim evaluated at an empty output list and
at a single message item with no output_text entry. -/
theorem C5_witness :
    ResponseParser.parse { output := some [] } "q" 7
        = .error (.valueError "No output in response") ∧
    ResponseParser.parse { output := some [c5it] } "q" 7
        = .ok { query := "q", text := "", citations := [], sources := [],
                search_id := "", timestamp := 7 } := by
  have h := C5_claim { output := some [] } "q" 7 c5it
  exact ⟨h.1.mpr (Or.inr rfl), h.2 rfl (by decide)⟩

/-- C6 counterexample: Gateway construction with an absent or empty
credential raises a plain ValueError whose message does not mention any
MISSING_CREDENTIAL code (no such code exists in the codebase), refuting
the claimed MISSING_CREDENTIAL signal. -/
theorem C6_counterexample :
    WebSearchClient.construct none none
        = .error (.valueError
            "API key must be provided or set in OPENAI_API_KEY environment variable") ∧
    WebSearchClient.construct (some "") none
        = .error (.valueError
            "API key must be provided or set in OPENAI_API_KEY environment variable") ∧
    strContainsB
        "API key must be provided or set in OPENAI_API_KEY environment variable"
        "MISSING_CREDENTIAL" = false :=
  ⟨rfl, rfl, by decide⟩

/-- C6 (amended): construction with an absent or empty credential (after
the environment fallback) fails at construction time with a plain
ValueError directing the user to supply an API key - not with any
MISSING_CREDENTIAL-coded error - and construction with a non-empty
credential succeeds, storing the resolved key. -/
theorem C6_claim (key env : Option String) :
    (optTruthy key = false ↔ (key = none ∨ key = some "")) ∧
    ((optTruthy key = false ∧ optTruthy env = false) →
      WebSearchClient.construct key env
        = .error (.valueError
            "API key must be provided or set in OPENAI_API_KEY environment variable")) ∧
    (∀ k, key = some k → ¬ k = "" →
      WebSearchClient.construct key env = .ok { api_key := k }) ∧
    (∀ ek, optTruthy key = false → env = some ek → ¬ ek = "" →
      WebSearchClient.construct key env = .ok { api_key := ek }) := by
  refine ⟨?_, ?_, ?_, ?_⟩
  · cases key with
    | none => simp [optTruthy]
    | some s => by_cases hs : s = "" <;> simp [optTruthy, hs]
  · rintro ⟨hk, he⟩
    simp [WebSearchClient.construct, hk, he]
  · intro k hk hne
    subst hk
    have htr : optTruthy (some k) = true := by simp [optTruthy, hne]
    simp [WebSearchClient.construct, htr]
  · intro ek hk he hne
    subst he
    have htr : optTruthy (some ek) = true := by simp [optTruthy, hne]
    simp [WebSearchClient.construct, hk, htr]

/-- C6 witness: the amended claim at concrete credentials. -/
theorem C6_witness :
    WebSearchClient.construct none none
        = .error (.valueError
            "API key must be provided or set in OPENAI_API_KEY environment variable") ∧
    WebSearchClient.construct (some "sk-test-key") none
        = .ok { api_key := "sk-test-key" } :=
  ⟨(C6_claim none none).2.1 ⟨rfl, rfl⟩,
   (C6_claim (some "sk-test-key") none).2.2.1 "sk-test-key" rfl (by decide)⟩

/-- C8: parse is deterministic up to the timestamp - two parses of the
same normalized response and query at different clock values agree on
query, text, citations, sources and search_id; the timestamp field is the
clock value supplied at parse time, and the provider-supplied created
field has no influence on the result. -/
theorem C8_claim (r : ResponseDict) (q : String) (t1 t2 : Nat) :
    ((ResponseParser.parse r q t1).map
        (fun res => (res.query, res.text, res.citations, res.sources, res.search_id))
      = (ResponseParser.parse r q t2).map
        (fun res => (res.query, res.text, res.citations, res.sources, res.search_id))) ∧
    (∀ res, ResponseParser.parse r q t1 = .ok res →
      res.timestamp = t1 ∧ res.query = q) ∧
    (∀ c, ResponseParser.parse { r with created := c } q t1
      = ResponseParser.parse r q t1) := by
  rcases r with ⟨rid, rmodel, rcreated, routput⟩
  refine ⟨?_, ?_, ?_⟩
  · cases routput with
    | none => rfl
    | some l =>
      cases l with
      | nil => rfl
      | cons a as => rfl
  · intro res h
    cases routput with
    | none => simp [ResponseParser.parse] at h
    | some l =>
      cases l with
      | nil => simp [ResponseParser.parse] at h
      | cons a as =>
        rcases res with ⟨resq, rest, resc, ress, resid, restime⟩
        simp only [ResponseParser.parse, Except.ok.injEq, SearchResult.mk.injEq] at h
        obtain ⟨hq, -, -, -, -, htm⟩ := h
        exact ⟨htm.symm, hq.symm⟩
  · intro c
    cases routput with
    | none => rfl
    | some l =>
      cases l with
      | nil => rfl
      | cons a as => rfl

/-- C8 witness: the determinism claim applied to the concrete response
c9resp at clock values 1 and 2. -/
theorem C8_witness :
    ((ResponseParser.parse c9resp "q" 1).map
        (fun res => (res.query, res.text, res.citations, res.sources, res.search_id))
      = (ResponseParser.parse c9resp "q" 2).map
        (fun res => (res.query, res.text, res.citations, res.sources, res.search_id))) ∧
    c8res.timestamp = 1 ∧ c8res.query = "q" :=
  ⟨(C8_claim c9resp "q" 1 2).1,
   (C8_claim c9resp "q" 1 2).2.1 c8res rfl⟩

/-- C10: format_for_display treats the two empty collections
asymmetrically - an empty citations list still renders the literal line
"Citations: None", while an empty sources list suppresses the whole
sources section: the rendered lines are exactly banner, query, banner,
blank, "Result:", text, blank, the citations block, a blank line and the
closing banner, with no "Sources (N total):" header and no source lines
anywhere. -/
theorem C10_claim (r : SearchResult) :
    (r.citations = [] → "Citations: None" ∈ ResponseParser.format_lines r) ∧
    (r.sources = [] →
      ResponseParser.format_lines r
        = [ResponseParser.bannerLine, "Query: " ++ r.query,
           ResponseParser.bannerLine, "", "Result:", r.text, ""]
          ++ (if r.citations = [] then ["Citations: None"]
              else "Citations:" :: ResponseParser.citationLines 1 r.citations)
          ++ ["", ResponseParser.bannerLine]) := by
  constructor
  · intro h
    unfold ResponseParser.format_lines
    rw [if_pos h]
    simp
  · intro h
    unfold ResponseParser.format_lines
    rw [if_pos h]
    simp

/-- C1 counterexample: on a response with two message items and two
web_search_call items, the FIRST message item's first output_text entry is
"first text" and the FIRST web_search_call item's id is "ws_first", yet
parse returns text "second text", the second item's empty citation list,
searchId "ws_second" and the second item's sources - refuting the claimed
first-wins policy. -/
theorem C1_counterexample :
    (((c1resp.output.getD []).find? (fun it => it.type = some "message")).bind
        (fun it => ((it.content.getD []).find?
            (fun ci => ci.type = some "output_text")).bind (fun ci => ci.text))
      = some "first text") ∧
    (((c1resp.output.getD []).find? (fun it => it.type = some "web_search_call")).bind
        (fun it => it.id) = some "ws_first") ∧
    ((ResponseParser.parse c1resp "q" 0).map
        (fun r => (r.text, r.citations, r.search_id, r.sources))
      = .ok ("second text", [],
             "ws_second", [{ url := "https://s2.example", type := "web" }])) ∧
    ¬ ("second text" = "first text") ∧ ¬ ("ws_second" = "ws_first") :=
  ⟨rfl, rfl, rfl, by decide, by decide⟩

/-- C1 (amended): parse keeps the LAST matching data, not the first: the
result text and citations come from the last output_text entry among the
message items (scanning items and their content in order, later entries
overwriting earlier ones), searchId comes from the last web_search_call
item (its id, defaulting to ""), and sources come from the last
web_search_call item carrying a non-empty action; earlier matching items
are silently overwritten. -/
theorem C1_claim (r : ResponseDict) (q : String) (now : Nat)
    (res : SearchResult) (h : ResponseParser.parse r q now = .ok res) :
    (res.text, res.citations) = (pickLast msgPick (r.output.getD [])).getD ("", []) ∧
    res.search_id = (pickLast wscIdPick (r.output.getD [])).getD "" ∧
    res.sources = (pickLast wscSourcesPick (r.output.getD [])).getD [] := by
  rcases r with ⟨rid, rmodel, rcreated, routput⟩
  cases routput with
  | none => simp [ResponseParser.parse] at h
  | some l =>
    cases l with
    | nil => simp [ResponseParser.parse] at h
    | cons a as =>
      rcases res with ⟨resq, rest, resc, ress, resid, restime⟩
      simp only [ResponseParser.parse, Except.ok.injEq, SearchResult.mk.injEq] at h
      obtain ⟨hq, htext, hcit, hsrc, hid, htm⟩ := h
      refine ⟨?_, ?_, ?_⟩
      · rw [← htext, ← hcit]
        show (((a :: as).foldl ResponseParser.textStep ("", [])).1,
              ((a :: as).foldl ResponseParser.textStep ("", [])).2)
            = (pickLast msgPick (a :: as)).getD ("", [])
        rw [textPass_eq]
      · rw [← hid]
        show ((a :: as).foldl ResponseParser.sourcesStep ([], "")).2
            = (pickLast wscIdPick (a :: as)).getD ""
        rw [sourcesPass_eq]
      · rw [← hsrc]
        show ((a :: as).foldl ResponseParser.sourcesStep ([], "")).1
            = (pickLast wscSourcesPick (a :: as)).getD []
        rw [sourcesPass_eq]

/-- C1 witness: the last-wins characterization evaluated on the concrete
duplicate-bearing response. -/
theorem C1_witness :
    ((c1res.text, c1res.citations)
        = (pickLast msgPick (c1resp.output.getD [])).getD ("", [])) ∧
    c1res.search_id = (pickLast wscIdPick (c1resp.output.getD [])).getD "" ∧
    c1res.sources = (pickLast wscSourcesPick (c1resp.output.getD [])).getD [] :=
  C1_claim c1resp "q" 0 c1res rfl

/-- C2: the Orchestrator rejects exactly the empty, whitespace-only and
over-5000-character queries, raising a plain ValueError (a kind distinct
from SearchError) and performing no provider call; every other query
passes validation and the provider transport is invoked exactly once. -/
theorem C2_claim (transport : Payload → TransportOutcome) (now : Nat)
    (q : String) (opts : Option SearchOptions) :
    (SearchService.validate_query q = false
       ↔ (q = "" ∨ pyStrip q = "" ∨ 5000 < q.length)) ∧
    (SearchService.validate_query q = false →
      SearchService.search transport now q opts
        = (.error (.valueError "Invalid query: must be non-empty and under 5000 characters"), 0)) ∧
    (SearchService.validate_query q = true →
      (SearchService.search transport now q opts).2 = 1) := by
  refine ⟨?_, ?_, ?_⟩
  · constructor
    · intro hf
      by_contra hcon
      push_neg at hcon
      obtain ⟨h1, h2, h3⟩ := hcon
      have htr := (validate_query_spec q).mpr ⟨h1, h2, by omega⟩
      rw [htr] at hf
      simp at hf
    · intro hor
      cases hval : SearchService.validate_query q with
      | false => rfl
      | true =>
        exfalso
        obtain ⟨h1, h2, h3⟩ := (validate_query_spec q).mp hval
        rcases hor with h | h | h
        · exact h1 h
        · exact h2 h
        · omega
  · intro hf
    simp [SearchService.search, hf]
  · intro ht
    unfold SearchService.search
    rw [if_pos ht]
    exact client_calls_one transport q (some (opts.getD {})) ht

/-- C2 witness: validation failure at the empty query (ValueError, zero
transport calls) and success at a short query (exactly one transport
call). -/
theorem C2_witness :
    SearchService.search (fun _ => TransportOutcome.otherErr "boom") 0 "" none
        = (.error (.valueError "Invalid query: must be non-empty and under 5000 characters"), 0) ∧
    (SearchService.search (fun _ => TransportOutcome.otherErr "boom") 0 "hi" none).2 = 1 :=
  ⟨(C2_claim (fun _ => TransportOutcome.otherErr "boom") 0 "" none).2.1 rfl,
   (C2_claim (fun _ => TransportOutcome.otherErr "boom") 0 "hi" none).2.2 (by decide)⟩

/-- C3: the Gateway maps each transport failure kind to its fixed
SearchError code (authentication, rate limit, API, unknown), always
carrying the original failure text in details.original_error; the
Orchestrator re-raises any SearchError unchanged (never converting it to
SEARCH_FAILED), and wraps a parser ValueError into a SearchError with code
SEARCH_FAILED whose details.original_error holds the original message. -/
theorem C3_claim (q : String) (opts : Option SearchOptions) (now : Nat)
    (e : String) (hq : SearchService.validate_query q = true) :
    ((WebSearchClient.search (fun _ => TransportOutcome.authErr e) q opts).1
        = .error (.searchError
            { code := "AUTHENTICATION_ERROR",
              message := "Invalid API key or authentication failed",
              details := some [("original_error", e)] })) ∧
    ((WebSearchClient.search (fun _ => TransportOutcome.rateLimitErr e) q opts).1
        = .error (.searchError
            { code := "RATE_LIMIT_ERROR",
              message := "API rate limit exceeded",
              details := some [("original_error", e)] })) ∧
    ((WebSearchClient.search (fun _ => TransportOutcome.apiErr e) q opts).1
        = .error (.searchError
            { code := "API_ERROR",
              message := "API request failed: " ++ e,
              details := some [("original_error", e)] })) ∧
    ((WebSearchClient.search (fun _ => TransportOutcome.otherErr e) q opts).1
        = .error (.searchError
            { code := "UNKNOWN_ERROR",
              message := "Unexpected error: " ++ e,
              details := some [("original_error", e)] })) ∧
    ((SearchService.search (fun _ => TransportOutcome.authErr e) now q opts).1
        = .error (.searchError
            { code := "AUTHENTICATION_ERROR",
              message := "Invalid API key or authentication failed",
              details := some [("original_error", e)] })) ∧
    (∀ (transport : Payload → TransportOutcome) (se : SearchErr),
      (WebSearchClient.search transport q (some (opts.getD {}))).1
          = .error (.searchError se) →
      (SearchService.search transport now q opts).1 = .error (.searchError se)) ∧
    (∀ (resp : ResponseDict) (m : String),
      ResponseParser.parse resp q now = .error (.valueError m) →
      (SearchService.search (fun _ => TransportOutcome.ok resp) now q opts).1
        = .error (.searchError
            { code := "SEARCH_FAILED",
              message := "Search operation failed: " ++ m,
              details := some [("original_error", m)] })) := by
  have hparts : ∀ transport : Payload → TransportOutcome,
      SearchService.search transport now q opts
        = (SearchService.try_search_parse
            (WebSearchClient.search transport q (some (opts.getD {}))).1 q now,
           (WebSearchClient.search transport q (some (opts.getD {}))).2) := by
    intro transport
    unfold SearchService.search
    rw [if_pos hq]
  refine ⟨?_, ?_, ?_, ?_, ?_, ?_, ?_⟩
  · rw [client_search_eq _ _ _ hq]
    rfl
  · rw [client_search_eq _ _ _ hq]
    rfl
  · rw [client_search_eq _ _ _ hq]
    rfl
  · rw [client_search_eq _ _ _ hq]
    rfl
  · rw [hparts]
    show SearchService.try_search_parse
        (WebSearchClient.search (fun _ => TransportOutcome.authErr e) q
          (some (opts.getD {}))).1 q now = _
    rw [client_search_eq _ _ _ hq]
    rfl
  · intro transport se h
    rw [hparts transport]
    show SearchService.try_search_parse
        (WebSearchClient.search transport q (some (opts.getD {}))).1 q now = _
    rw [h]
    rfl
  · intro resp m hp
    rw [hparts]
    show SearchService.try_search_parse
        (WebSearchClient.search (fun _ => TransportOutcome.ok resp) q
          (some (opts.getD {}))).1 q now = _
    rw [client_search_eq _ _ _ hq]
    show SearchService.try_search_parse (Except.ok resp) q now = _
    simp only [SearchService.try_search_parse]
    rw [hp]
    rfl

/-- C3 witness: the error mapping and wrapping at a concrete query,
failure text and malformed response. -/
theorem C3_witness :
    ((WebSearchClient.search (fun _ => TransportOutcome.authErr "401") "tech" none).1
        = .error (.searchError
            { code := "AUTHENTICATION_ERROR",
              message := "Invalid API key or authentication failed",
              details := some [("original_error", "401")] })) ∧
    ((SearchService.search (fun _ => TransportOutcome.authErr "401") 0 "tech" none).1
        = .error (.searchError
            { code := "AUTHENTICATION_ERROR",
              message := "Invalid API key or authentication failed",
              details := some [("original_error", "401")] })) ∧
    ((SearchService.search (fun _ => TransportOutcome.ok { output := none }) 0 "tech" none).1
        = .error (.searchError
            { code := "SEARCH_FAILED",
              message := "Search operation failed: No output in response",
              details := some [("original_error", "No output in response")] })) :=
 by
  have h := C3_claim "tech" none 0 "401" (by decide)
  have h2 := C3_claim "tech" none 0 "x" (by decide)
  exact ⟨h.1, h.2.2.2.2.1,
    h2.2.2.2.2.2.2 { output := none } "No output in response" rfl⟩

/-- The tool declaration built by _construct_payload, in closed form. -/
theorem cp_tools (q : String) (o : SearchOptions) :
    (WebSearchClient.construct_payload q o).tools
      = [{ type := "web_search",
           filters := match o.allowed_domains with
                      | some ds => if ds = [] then none
                                   else some { allowed_domains := ds }
                      | none => none,
           user_location := match o.user_location with
                            | some loc => if loc = [] then none else some loc
                            | none => none }] := by
  rcases o with ⟨om, oad, oul, ore⟩
  cases oad with
  | none =>
    cases oul with
    | none => rfl
    | some loc =>
      by_cases h : loc = [] <;> simp [WebSearchClient.construct_payload, h]
  | some ds =>
    cases oul with
    | none =>
      by_cases hds : ds = [] <;> simp [WebSearchClient.construct_payload, hds]
    | some loc =>
      by_cases hds : ds = [] <;> by_cases hl : loc = [] <;>
        simp [WebSearchClient.construct_payload, hds, hl]

/-- C4 counterexample: with userLocation set to an empty mapping, the code
(if options.user_location:) emits no user_location key on the tool
declaration, refuting the claimed verbatim attachment "when set" - the
claim itself only exempts the empty list for allowedDomains, not the empty
mapping for userLocation. -/
theorem C4_counterexample :
    c4empty.user_location = some [] ∧
    (WebSearchClient.construct_payload "x" c4empty).tools
      = [{ type := "web_search", filters := none, user_location := none }] :=
  ⟨rfl, rfl⟩

/-- C4 (amended): the payload carries a single web_search tool
declaration; a domain filter object is attached to it exactly when
allowedDomains is set and non-empty (an empty list emits no filter),
userLocation is attached verbatim exactly when set to a non-empty mapping
(an empty mapping, like an empty domain list, emits no user_location key),
a top-level reasoning field is present exactly when reasoningEffort
differs from the "low" default, and the fixed include-sources directive is
always present. -/
theorem C4_claim (q : String) (o : SearchOptions) :
    ∃ t : ToolDecl,
      (WebSearchClient.construct_payload q o).tools = [t] ∧
      t.type = "web_search" ∧
      (∀ ds, o.allowed_domains = some ds → ¬ ds = [] →
        t.filters = some { allowed_domains := ds }) ∧
      (¬ t.filters = none →
        ∃ ds, o.allowed_domains = some ds ∧ ¬ ds = [] ∧
          t.filters = some { allowed_domains := ds }) ∧
      (∀ loc, o.user_location = some loc → ¬ loc = [] →
        t.user_location = some loc) ∧
      (¬ t.user_location = none →
        ∃ loc, o.user_location = some loc ∧ ¬ loc = [] ∧
          t.user_location = some loc) ∧
      ((¬ (WebSearchClient.construct_payload q o).reasoning = none)
         ↔ ¬ o.reasoning_effort = "low") ∧
      (¬ o.reasoning_effort = "low" →
        (WebSearchClient.construct_payload q o).reasoning
          = some o.reasoning_effort) ∧
      (WebSearchClient.construct_payload q o).include_keys
        = ["web_search_call.action.sources"] := by
  refine ⟨_, cp_tools q o, rfl, ?_, ?_, ?_, ?_, ?_, ?_, rfl⟩
  · intro ds hds hne
    simp [hds, hne]
  · intro hfil
    cases had : o.allowed_domains with
    | none => exact absurd (by simp [had]) hfil
    | some ds =>
      by_cases hne : ds = []
      · exact absurd (by simp [had, hne]) hfil
      · exact ⟨ds, rfl, hne, by simp [hne]⟩
  · intro loc hloc hne
    simp [hloc, hne]
  · intro hul
    cases hadu : o.user_location with
    | none => exact absurd (by simp [hadu]) hul
    | some loc =>
      by_cases hne : loc = []
      · exact absurd (by simp [hadu, hne]) hul
      · exact ⟨loc, rfl, hne, by simp [hne]⟩
  · by_cases hr : o.reasoning_effort = "low" <;>
      simp [WebSearchClient.construct_payload, hr]
  · intro hr
    simp [WebSearchClient.construct_payload, hr]

/-- C4 witness: the payload built from options with two allowed domains, a
user location and reasoning effort "high". -/
theorem C4_witness :
    (WebSearchClient.construct_payload "x" c4opts).tools
        = [{ type := "web_search",
             filters := some { allowed_domains := ["a.com", "b.com"] },
             user_location := some [("country", "US")] }] ∧
    (WebSearchClient.construct_payload "x" c4opts).reasoning = some "high" ∧
    (WebSearchClient.construct_payload "x" c4opts).include_keys
        = ["web_search_call.action.sources"] := by
  obtain ⟨t, htools, htype, hfil, hrev, hloc, hulrev, hiff, hreas, hinc⟩ :=
    C4_claim "x" c4opts
  refine ⟨?_, hreas (by decide), hinc⟩
  have h1 := hfil ["a.com", "b.com"] rfl (by decide)
  have h2 := hloc [("country", "US")] rfl (by decide)
  rw [htools]
  rcases t with ⟨tt, tf, tl⟩
  simp only at htype h1 h2
  subst htype
  subst h1
  subst h2
  rfl

/-- C7: applyDomainFilters rejects every list of more than 20 domains with
a ValidationError mentioning "20"; for a list within the limit containing
an entry with a scheme prefix, an empty entry or an entry with a space, it
raises a ValidationError whose message names an offending entry; and every
list passing both checks yields SearchOptions whose allowedDomains is
exactly the input list. -/
theorem C7_claim (l : List String) :
    (20 < l.length →
      ∃ m, SearchService.apply_domain_filters l = .error (.valueError m) ∧
        strContainsB m "20" = true) ∧
    (l.length ≤ 20 → ∀ d, d ∈ l → badDomainB d = true →
      ∃ d2 m, d2 ∈ l ∧ badDomainB d2 = true ∧
        SearchService.apply_domain_filters l = .error (.valueError m) ∧
        strContainsB m d2 = true) ∧
    (l.length ≤ 20 → (∀ d ∈ l, badDomainB d = false) →
      SearchService.apply_domain_filters l
        = .ok { model := "gpt-4o-mini", allowed_domains := some l,
                user_location := none, reasoning_effort := "low" }) := by
  refine ⟨?_, ?_, ?_⟩
  · intro h
    refine ⟨"Too many domains (max 20 allowed)", ?_, by decide⟩
    unfold SearchService.apply_domain_filters
    rw [if_pos h]
  · intro hlen d hd hbad
    obtain ⟨d2, m, hm1, hm2, hm3, hm4⟩ := domain_error_first l d hd hbad
    refine ⟨d2, m, hm1, hm2, ?_, hm4⟩
    unfold SearchService.apply_domain_filters
    rw [if_neg (by omega), hm3]
  · intro hlen hall
    unfold SearchService.apply_domain_filters
    rw [if_neg (by omega), domain_error_none l hall]

/-- C7 witness: 21 domains trip the count check with a message mentioning
20, a scheme-prefixed domain trips the format check with a message naming
it, and a clean single-domain list round-trips into the options. -/
theorem C7_witness :
    (∃ m, SearchService.apply_domain_filters (List.replicate 21 "example.com")
        = .error (.valueError m) ∧ strContainsB m "20" = true) ∧
    (∃ d2 m, d2 ∈ ["http://x.com"] ∧ badDomainB d2 = true ∧
      SearchService.apply_domain_filters ["http://x.com"]
        = .error (.valueError m) ∧ strContainsB m d2 = true) ∧
    SearchService.apply_domain_filters ["example.com"]
      = .ok { model := "gpt-4o-mini", allowed_domains := some ["example.com"],
              user_location := none, reasoning_effort := "low" } :=
 by
  have h1 := C7_claim (List.replicate 21 "example.com")
  have h2 := C7_claim ["http://x.com"]
  have h3 := C7_claim ["example.com"]
  exact ⟨h1.1 (by decide),
    h2.2.1 (by decide) "http://x.com" (by decide) (by decide),
    h3.2.2 (by decide) (by decide)⟩

/-- C10 witness: the formatting asymmetry at a concrete result with no
citations and no sources. -/
theorem C10_witness :
    ("Citations: None" ∈ ResponseParser.format_lines c10res) ∧
    (ResponseParser.format_lines c10res
      = [ResponseParser.bannerLine, "Query: " ++ c10res.query,
         ResponseParser.bannerLine, "", "Result:", c10res.text, ""]
        ++ (if c10res.citations = [] then ["Citations: None"]
            else "Citations:" :: ResponseParser.citationLines 1 c10res.citations)
        ++ ["", ResponseParser.bannerLine]) :=
  ⟨(C10_claim c10res).1 rfl, (C10_claim c10res).2 rfl⟩

end WebSearch
